import Mathlib

/-!
Shallow embedding of the Civica-MVP data-processing pipeline
(`src/data_processing/{validators,spatial,processor,reporting}.py`).

A geopandas `GeoDataFrame` is modelled as a `GeoFrame`: a list of attribute
column names, a list of features (attribute mapping plus an optional geometry,
`none` being a null/missing geometry), and an optional CRS tag.

Geometry values are supplied by an external engine (shapely/GEOS); the pipeline
uses only the predicates `is_valid`/`is_empty`, the repairs `make_valid` /
zero-distance buffer, containment (`within`) and pairwise intersection.  We
model a geometry abstractly as a validity flag plus a discrete footprint (a
list of cells): `within` is footprint inclusion, intersection is footprint
overlap, and both repairs return the same footprint marked valid (the engine's
contract: `make_valid` returns a valid normalized representation, `buffer(0)`
a best-effort valid simplification).  Python exceptions are modelled with
`Except PyErr`.
-/

/-- Result of evaluating a Python expression that can raise. -/
inductive PyErr where
  | valueError (msg : String)
  | attributeError (attr : String)
  | keyError (key : String)
  | zeroDivisionError
  | picklingError
deriving Repr, DecidableEq

/-- An attribute value of a feature (pandas object cell); `Option Val` is a
possibly-null cell. -/
inductive Val where
  | str (s : String)
  | num (n : Int)
deriving Repr, DecidableEq

/-- Abstract geometry value delivered by the geometry engine: a validity flag
and a discrete footprint.  `cells = []` is an empty geometry. -/
structure Geom where
  isValid : Bool
  cells : List Nat
deriving Repr, DecidableEq

/-- `is_empty` predicate of the engine. -/
def Geom.isEmpty (g : Geom) : Bool := g.cells.isEmpty

/-- `shapely.validation.make_valid`: returns a valid normalized
representation of the same shape. -/
def Geom.makeValid (g : Geom) : Geom := { isValid := true, cells := g.cells }

/-- `geom.buffer(0)`: best-effort valid simplification of the same shape. -/
def Geom.buffer0 (g : Geom) : Geom := { isValid := true, cells := g.cells }

/-- `a.within(b)` of the engine: a non-empty shape whose footprint is
contained in b's footprint. -/
def Geom.within (a b : Geom) : Bool :=
  !a.cells.isEmpty && a.cells.all (fun c => decide (c ∈ b.cells))

/-- Non-empty pairwise intersection of two shapes. -/
def Geom.intersects (a b : Geom) : Bool :=
  a.cells.any (fun c => decide (c ∈ b.cells))

/-- One feature: named attribute cells plus one geometry value
(`none` = null geometry). -/
structure Feature where
  attrs : List (String × Option Val)
  geom : Option Geom
deriving Repr, DecidableEq

instance : Inhabited Feature := ⟨⟨[], none⟩⟩

/-- A GeoDataFrame: attribute columns (the `geometry` column is kept apart in
`Feature.geom`), rows, and the CRS tag (`none` = CRS undefined). -/
structure GeoFrame where
  cols : List String
  rows : List Feature
  crs : Option String
deriving Repr, DecidableEq

/-- `row[col]`: a cell that is absent or explicitly null reads as null. -/
def getVal (r : Feature) (c : String) : Option Val :=
  match r.attrs.lookup c with
  | some v => v
  | none => none

/-- Vectorized `is_valid` of a geometry column entry: missing geometries
report `False`. -/
def optIsValid : Option Geom → Bool
  | none => false
  | some g => g.isValid

/-- Vectorized `is_empty` of a geometry column entry: missing geometries
report `False`. -/
def rowIsEmpty (r : Feature) : Bool :=
  match r.geom with
  | none => false
  | some g => g.isEmpty

/-- `within` on geometry column entries: a null geometry matches nothing. -/
def optWithin : Option Geom → Option Geom → Bool
  | some a, some b => a.within b
  | _, _ => false

/-- Pairwise intersection on geometry column entries: a null geometry
intersects nothing. -/
def optIntersects : Option Geom → Option Geom → Bool
  | some a, some b => a.intersects b
  | _, _ => false

/-- Left-to-right effectful map: stops at the first raised error, exactly as a
Python loop or `Series.apply` does. -/
def mapE (f : α → Except PyErr β) : List α → Except PyErr (List β)
  | [] => .ok []
  | a :: as =>
    match f a with
    | .error e => .error e
    | .ok b =>
      match mapE f as with
      | .error e => .error e
      | .ok bs => .ok (b :: bs)

/-- `config.REQUIRED_ZONING_COLUMNS`. -/
def REQUIRED_ZONING_COLUMNS : List String := ["lu_bylaw", "lu_code", "dc_bylaw", "dc_site_no"]

/-- `config.REQUIRED_PARCEL_COLUMNS`. -/
def REQUIRED_PARCEL_COLUMNS : List String := ["roll_numbe", "address", "land_use_d", "property_t"]

/-- `config.TARGET_CRS`. -/
def TARGET_CRS : String := "EPSG:32612"

/-- `config.ZONING_COLUMN_PREFIXES`. -/
def zoningColPrefixes : List String := ["ZONE_", "LAND_USE_", "lu_", "dc_"]

/-- Validation issues appended by the validators; each constructor carries the
payload of the corresponding f-string message in the source. -/
inductive VIssue where
  | missingColumns (cols : List String)
  | allNull (col : String)
  | nullCodes (n : Nat)
  | emptyCodes (n : Nat)
  | invalidChars (n : Nat)
  | overlappingDistricts
  | unzonedParcels (n : Nat)
deriving Repr, DecidableEq

/-- `ColumnValidator.validate(gdf, required_columns)`
(`validators.py:60-77`). -/
def columnValidator_validate (gdf : GeoFrame) (required : List String) :
    Bool × List VIssue :=
  let missing := required.filter (fun c => decide (c ∉ gdf.cols))
  let issues :=
    (if missing.isEmpty then [] else [VIssue.missingColumns missing])
      ++ required.filterMap (fun c =>
        if c ∈ gdf.cols ∧ gdf.rows.all (fun r => (getVal r c).isNone) then
          some (VIssue.allNull c)
        else none)
  (issues.isEmpty, issues)

/-- Does the string contain a character outside `[A-Z0-9-]`
(the regex of `validators.py:101`)?  Applied with `na=False`: nulls and
non-string cells report `False`. -/
def hasInvalidChars : Option Val → Bool
  | some (.str s) => s.data.any (fun ch => !(ch.isUpper || ch.isDigit || ch == '-'))
  | _ => false

/-- `ZoningCodeValidator.validate(gdf)` (`validators.py:82-105`): operates
only on `lu_code`; flags null codes, empty-string codes, and codes with a
character outside `[A-Z0-9-]`. -/
def zoningValidator_validate (gdf : GeoFrame) : Bool × List VIssue :=
  if "lu_code" ∈ gdf.cols then
    let vals := gdf.rows.map (fun r => getVal r "lu_code")
    let null_codes := vals.countP (fun v => v.isNone)
    let empty_codes := vals.countP (fun v => decide (v = some (Val.str "")))
    let invalid_chars := vals.countP hasInvalidChars
    let issues :=
      (if null_codes > 0 then [VIssue.nullCodes null_codes] else [])
        ++ (if empty_codes > 0 then [VIssue.emptyCodes empty_codes] else [])
        ++ (if invalid_chars > 0 then [VIssue.invalidChars invalid_chars] else [])
    (issues.isEmpty, issues)
  else (true, [])

/-- The elementwise repair of `GeometryValidator.fix_issues`
(`validators.py:46`): `make_valid(x) if not x.is_valid else x`.  On a null
geometry, `x.is_valid` raises `AttributeError`. -/
def fixRowMakeValid (r : Feature) : Except PyErr Feature :=
  match r.geom with
  | none => .error (.attributeError "is_valid")
  | some g => .ok { r with geom := some (if g.isValid then g else g.makeValid) }

/-- Pure shadow of `fixRowMakeValid` on rows with non-null geometry. -/
def fixRowMakeValidPure (r : Feature) : Feature :=
  match r.geom with
  | none => r
  | some g => { r with geom := some (if g.isValid then g else g.makeValid) }

/-- `GeometryValidator.fix_issues(gdf)` (`validators.py:43-51`): repair every
invalid geometry with `make_valid`, then drop rows whose geometry is empty. -/
def fix_issues (gdf : GeoFrame) : Except PyErr GeoFrame :=
  match mapE fixRowMakeValid gdf.rows with
  | .error e => .error e
  | .ok rows1 => .ok { gdf with rows := rows1.filter (fun r => !(rowIsEmpty r)) }

/-- The elementwise repair of `CalgaryDataProcessor._validate_and_fix_geometries`
(`processor.py:117,120`): rows flagged invalid by the vectorized mask get
`x.buffer(0) if not x.is_valid else x`; rows flagged valid are untouched.  On a
null geometry the mask is `True` and `x.is_valid` raises `AttributeError`. -/
def bufFixRow (r : Feature) : Except PyErr Feature :=
  if optIsValid r.geom then .ok r
  else
    match r.geom with
    | none => .error (.attributeError "is_valid")
    | some g => .ok { r with geom := some (if g.isValid then g else g.buffer0) }

/-- Pure shadow of `bufFixRow` on rows with non-null geometry. -/
def bufFixRowPure (r : Feature) : Feature :=
  if optIsValid r.geom then r
  else
    match r.geom with
    | none => r
    | some g => { r with geom := some (if g.isValid then g else g.buffer0) }

/-- `CalgaryDataProcessor._validate_and_fix_geometries(gdf, name)`
(`processor.py:107-123`): when the vectorized invalidity mask is anywhere
true, repair the flagged rows and then drop empty geometries; otherwise
return the frame unchanged (empty geometries are then not dropped).  The
parallel branch taken above 10,000 features hands a lambda to
`multiprocessing.Pool.map`, which pickles the callable before any element is
processed; CPython cannot pickle a lambda, so that branch deterministically
raises a `PicklingError` in the parent process whenever it runs. -/
def validate_and_fix_geometries (gdf : GeoFrame) : Except PyErr GeoFrame :=
  if gdf.rows.any (fun r => !(optIsValid r.geom)) then
    if gdf.rows.length > 10000 then .error .picklingError
    else
      match mapE bufFixRow gdf.rows with
      | .error e => .error e
      | .ok rows1 => .ok { gdf with rows := rows1.filter (fun r => !(rowIsEmpty r)) }
  else .ok gdf

/-- A frame one feature above the parallelization threshold, every geometry
non-null but invalid. -/
def aboveThresholdFrame : GeoFrame :=
  { cols := [],
    rows := List.replicate 10001 { attrs := [], geom := some ⟨false, [0]⟩ },
    crs := some "EPSG:32612" }

/-- `GeoDataFrame.to_crs(target)`: raises when the frame has no declared CRS
(message as asserted by the repository's tests), otherwise retags the frame
with the target CRS (the coordinate transformation itself is performed by the
engine and does not change the modelled footprint). -/
def to_crs (gdf : GeoFrame) (target : String) : Except PyErr GeoFrame :=
  match gdf.crs with
  | none => .error (.valueError "Cannot transform naive geometries")
  | some _ => .ok { gdf with crs := some target }

/-- `CalgaryDataProcessor._ensure_consistent_crs(zoning_gdf, parcels_gdf)`
(`processor.py:160-172`): reproject either frame whose CRS differs from
`EPSG:32612`. -/
def ensure_consistent_crs (zoning_gdf parcels_gdf : GeoFrame) :
    Except PyErr (GeoFrame × GeoFrame) :=
  match (if zoning_gdf.crs ≠ some TARGET_CRS then to_crs zoning_gdf TARGET_CRS
         else .ok zoning_gdf) with
  | .error e => .error e
  | .ok z =>
    match (if parcels_gdf.crs ≠ some TARGET_CRS then to_crs parcels_gdf TARGET_CRS
           else .ok parcels_gdf) with
    | .error e => .error e
    | .ok p => .ok (z, p)

/-- Left-side column renaming of `gpd.sjoin` (default `lsuffix="left"`). -/
def lcol (pf zf : GeoFrame) (c : String) : String :=
  if c ∈ zf.cols then c ++ "_left" else c

/-- Right-side column renaming of `gpd.sjoin` (default `rsuffix="right"`). -/
def rcol (pf zf : GeoFrame) (c : String) : String :=
  if c ∈ pf.cols then c ++ "_right" else c

/-- Column set of `gpd.sjoin(parcels, zoning, how="left")`: parcel columns,
zoning columns, and the join-index column `index_right`. -/
def joinedCols (pf zf : GeoFrame) : List String :=
  pf.cols.map (lcol pf zf) ++ zf.cols.map (rcol pf zf) ++ ["index_right"]

/-- Output row of the left join for a parcel with no containing zoning
polygon: the parcel's own attributes and geometry, null in every zoning
column and in `index_right`. -/
def mkNullJoinRow (pf zf : GeoFrame) (p : Feature) : Feature :=
  { attrs := pf.cols.map (fun c => (lcol pf zf c, getVal p c))
      ++ zf.cols.map (fun c => (rcol pf zf c, (none : Option Val)))
      ++ [("index_right", none)],
    geom := p.geom }

/-- Output row of the left join for a parcel matched by zoning row `j`: the
parcel's attributes and geometry, the zoning row's attributes, and `j` in
`index_right`. -/
def mkMatchJoinRow (pf zf : GeoFrame) (p : Feature) (j : Nat) (z : Feature) : Feature :=
  { attrs := pf.cols.map (fun c => (lcol pf zf c, getVal p c))
      ++ zf.cols.map (fun c => (rcol pf zf c, getVal z c))
      ++ [("index_right", some (Val.num (Int.ofNat j)))],
    geom := p.geom }

/-- The match table the spatial index query produces inside `gpd.sjoin`:
all pairs `(i, j)` with parcel `i` within zoning polygon `j`. -/
def joinPairs (pf zf : GeoFrame) : List (Nat × Nat) :=
  (List.range pf.rows.length).flatMap (fun i =>
    (List.range zf.rows.length).filterMap (fun j =>
      if optWithin (pf.rows.getD i default).geom (zf.rows.getD j default).geom then
        some (i, j)
      else none))

/-- `gpd.sjoin(parcels_gdf, zoning_gdf, how="left", predicate="within")`
(`processor.py:190`): each parcel keeps its row order; a parcel with no match
in the pair table yields one row with null zoning attributes, a parcel with
matches yields one row per match. -/
def sjoinLeftWithin (pf zf : GeoFrame) : GeoFrame :=
  { cols := joinedCols pf zf,
    rows := (List.range pf.rows.length).flatMap (fun i =>
      let p := pf.rows.getD i default
      let js := ((joinPairs pf zf).filter (fun q => q.fst == i)).map (fun q => q.snd)
      if js.isEmpty then [mkNullJoinRow pf zf p]
      else js.map (fun j => mkMatchJoinRow pf zf p j (zf.rows.getD j default))),
    crs := pf.crs }

/-- Does the column name start with one of `config.ZONING_COLUMN_PREFIXES`
(`processor.py:196-199`)? -/
def isZoningColumn (c : String) : Bool :=
  zoningColPrefixes.any (fun p => p.data.isPrefixOf c.data)

/-- `CalgaryDataProcessor._perform_spatial_join(zoning_gdf, parcels_gdf)`
(`processor.py:183-209`): left within-join, then keep geometry plus the
zoning-prefixed columns and the four essential parcel columns when any
zoning-prefixed column exists, else keep all columns (the source's
`columns.difference` additionally sorts the retained names; order is
immaterial here). -/
def perform_spatial_join (zoning_gdf parcels_gdf : GeoFrame) : GeoFrame :=
  let joined := sjoinLeftWithin parcels_gdf zoning_gdf
  let zoning_columns := joined.cols.filter isZoningColumn
  let columns_to_keep :=
    if zoning_columns.isEmpty then joined.cols
    else zoning_columns ++ REQUIRED_PARCEL_COLUMNS.filter (fun c => decide (c ∈ joined.cols))
  { cols := columns_to_keep,
    rows := joined.rows.map (fun r =>
      { attrs := columns_to_keep.map (fun c => (c, getVal r c)), geom := r.geom }),
    crs := joined.crs }

/-- Feature count of `zoning_gdf.overlay(zoning_gdf, how='intersection')`
(`spatial.py:19`): one output feature per pair of rows whose geometries have a
non-empty pairwise intersection. -/
def overlayIntersectionPairs (a b : GeoFrame) : List (Nat × Nat) :=
  (List.range a.rows.length).flatMap (fun i =>
    (List.range b.rows.length).filterMap (fun j =>
      if optIntersects (a.rows.getD i default).geom (b.rows.getD j default).geom then
        some (i, j)
      else none))

/-- `SpatialRelationshipValidator.validate(zoning_gdf, parcels_gdf)`
(`spatial.py:11-29`): flag overlapping districts when the self-overlay has
more features than the zoning frame, and flag the count of parcels whose left
within-join match is null. -/
def spatialValidator_validate (zoning_gdf parcels_gdf : GeoFrame) :
    Bool × List VIssue :=
  let zoning_overlaps := overlayIntersectionPairs zoning_gdf zoning_gdf
  let issues1 :=
    if zoning_overlaps.length > zoning_gdf.rows.length then
      [VIssue.overlappingDistricts]
    else []
  let parcels_in_zoning := sjoinLeftWithin parcels_gdf zoning_gdf
  let unzoned_parcels :=
    parcels_in_zoning.rows.countP (fun r => (getVal r "index_right").isNone)
  let issues := issues1 ++
    (if unzoned_parcels > 0 then [VIssue.unzonedParcels unzoned_parcels] else [])
  (issues.isEmpty, issues)

/-- Per-column statistics of `DataQualityReporter._generate_dataset_report`
(`reporting.py:48-56`): null count, null percentage (`none` models the NaN a
pandas mean produces on an empty frame), and distinct non-null cardinality.
The stringly `data_type` field is presentational and not modelled. -/
structure ColumnStats where
  null_count : Nat
  null_percentage : Option ℚ
  unique_values : Nat
deriving Repr, DecidableEq

/-- Per-dataset section of the quality report (`reporting.py:43-59`); the
geometry-type histogram is presentational and not modelled. -/
structure DatasetReport where
  feature_count : Nat
  crs : Option String
  columns : List (String × ColumnStats)
  total_area : ℚ
deriving Repr, DecidableEq

/-- Total footprint area reported by the engine for a geometry column entry. -/
def optArea : Option Geom → ℚ
  | none => 0
  | some g => (g.cells.length : ℚ)

/-- `DataQualityReporter._generate_dataset_report(gdf, name)`
(`reporting.py:43-59`); total on every frame. -/
def generate_dataset_report (gdf : GeoFrame) : DatasetReport :=
  { feature_count := gdf.rows.length,
    crs := gdf.crs,
    columns := gdf.cols.map (fun c =>
      let vals := gdf.rows.map (fun r => getVal r c)
      (c, { null_count := vals.countP (fun v => v.isNone),
            null_percentage :=
              if gdf.rows.length = 0 then none
              else some ((vals.countP (fun v => v.isNone) : ℚ) / (gdf.rows.length : ℚ) * 100),
            unique_values := (vals.filterMap id).dedup.length })),
    total_area :=
      if gdf.rows.isEmpty then 0
      else (gdf.rows.map (fun r => optArea r.geom)).sum }

/-- The `zoning_coverage` / `parcel_coverage` blocks of
`_generate_spatial_metrics` (`reporting.py:64-73`): total area, feature
count and mean feature area (`none` models the NaN mean of an empty frame). -/
structure CoverageStats where
  total_area : ℚ
  count : Nat
  average_size : Option ℚ
deriving Repr, DecidableEq

/-- Coverage block for one frame (`reporting.py:64-73`). -/
def coverageStats (gdf : GeoFrame) : CoverageStats :=
  { total_area := (gdf.rows.map (fun r => optArea r.geom)).sum,
    count := gdf.rows.length,
    average_size :=
      if gdf.rows.length = 0 then none
      else some ((gdf.rows.map (fun r => optArea r.geom)).sum / (gdf.rows.length : ℚ)) }

/-- The `join_metrics` block of `_generate_spatial_metrics`
(`reporting.py:74-78`). -/
structure JoinMetrics where
  parcels_with_zoning : Nat
  parcels_without_zoning : Nat
  coverage_percentage : ℚ
deriving Repr, DecidableEq

/-- The result of `_generate_spatial_metrics` (`reporting.py:61-79`). -/
structure SpatialMetrics where
  zoning_coverage : CoverageStats
  parcel_coverage : CoverageStats
  join_metrics : JoinMetrics
deriving Repr, DecidableEq

/-- Number of joined rows whose `index_right` is non-null
(`joined_gdf[joined_gdf.index_right.notnull()]`). -/
def parcelsWithZoning (jf : GeoFrame) : Nat :=
  jf.rows.countP (fun r => (getVal r "index_right").isSome)

/-- Number of joined rows whose `index_right` is null. -/
def parcelsWithoutZoning (jf : GeoFrame) : Nat :=
  jf.rows.countP (fun r => (getVal r "index_right").isNone)

/-- `DataQualityReporter._generate_spatial_metrics(zoning, parcels, joined)`
(`reporting.py:61-79`): the coverage blocks never raise; the join block first
reads `joined_gdf.index_right` (an `AttributeError` when the projection
dropped that column) and then divides the match count by `len(parcels_gdf)`
(a `ZeroDivisionError` when the parcel frame is empty). -/
def generate_spatial_metrics (zoning_gdf parcels_gdf joined_gdf : GeoFrame) :
    Except PyErr SpatialMetrics :=
  if "index_right" ∈ joined_gdf.cols then
    if parcels_gdf.rows.length = 0 then .error .zeroDivisionError
    else
      .ok { zoning_coverage := coverageStats zoning_gdf,
            parcel_coverage := coverageStats parcels_gdf,
            join_metrics :=
              { parcels_with_zoning := parcelsWithZoning joined_gdf,
                parcels_without_zoning := parcelsWithoutZoning joined_gdf,
                coverage_percentage :=
                  (parcelsWithZoning joined_gdf : ℚ) / (parcels_gdf.rows.length : ℚ) * 100 } }
  else .error (.attributeError "index_right")

/-- The result of `_generate_completeness_metrics` (`reporting.py:81-104`):
per-required-column completeness for both inputs (`none` models the NaN of an
empty frame) and the joined percentages. -/
structure CompletenessMetrics where
  zoning_required : List (String × Option ℚ)
  parcels_required : List (String × Option ℚ)
  spatial_join_completeness : ℚ
  missing_zoning_info : ℚ
deriving Repr, DecidableEq

/-- Completeness of one column: `float(1 - gdf[col].isnull().mean()) * 100`;
accessing a missing column raises `KeyError`. -/
def colCompleteness (gdf : GeoFrame) (c : String) : Except PyErr (String × Option ℚ) :=
  if c ∈ gdf.cols then
    .ok (c,
      if gdf.rows.length = 0 then none
      else some ((1 - (gdf.rows.countP (fun r => (getVal r c).isNone) : ℚ)
          / (gdf.rows.length : ℚ)) * 100))
  else .error (.keyError c)

/-- `DataQualityReporter._generate_completeness_metrics(zoning, parcels,
joined)` (`reporting.py:81-104`): the two per-input blocks hard-code the same
required column lists as the configuration; the `joined_data` block reads
`joined_gdf.index_right` and divides by `len(parcels_gdf)`. -/
def generate_completeness_metrics (zoning_gdf parcels_gdf joined_gdf : GeoFrame) :
    Except PyErr CompletenessMetrics :=
  match mapE (colCompleteness zoning_gdf) REQUIRED_ZONING_COLUMNS with
  | .error e => .error e
  | .ok zreq =>
    match mapE (colCompleteness parcels_gdf) REQUIRED_PARCEL_COLUMNS with
    | .error e => .error e
    | .ok preq =>
      if "index_right" ∈ joined_gdf.cols then
        if parcels_gdf.rows.length = 0 then .error .zeroDivisionError
        else
          .ok { zoning_required := zreq,
                parcels_required := preq,
                spatial_join_completeness :=
                  (parcelsWithZoning joined_gdf : ℚ) / (parcels_gdf.rows.length : ℚ) * 100,
                missing_zoning_info :=
                  (parcelsWithoutZoning joined_gdf : ℚ) / (parcels_gdf.rows.length : ℚ) * 100 }
      else .error (.attributeError "index_right")

/-- The full quality report (`reporting.py:25-34`); the timestamp and the
serialization side effect are not modelled. -/
structure Report where
  input_zoning : DatasetReport
  input_parcels : DatasetReport
  output_data : DatasetReport
  spatial_metrics : SpatialMetrics
  data_completeness : CompletenessMetrics
deriving Repr, DecidableEq

/-- `DataQualityReporter.generate_report(zoning, parcels, joined)`
(`reporting.py:20-41`): the dataset sections never raise; the spatial-metrics
section is evaluated before the completeness section, so its exceptions
surface first. -/
def generate_report (zoning_gdf parcels_gdf joined_gdf : GeoFrame) :
    Except PyErr Report :=
  match generate_spatial_metrics zoning_gdf parcels_gdf joined_gdf with
  | .error e => .error e
  | .ok sm =>
    match generate_completeness_metrics zoning_gdf parcels_gdf joined_gdf with
    | .error e => .error e
    | .ok cm =>
      .ok { input_zoning := generate_dataset_report zoning_gdf,
            input_parcels := generate_dataset_report parcels_gdf,
            output_data := generate_dataset_report joined_gdf,
            spatial_metrics := sm,
            data_completeness := cm }

/-- `CalgaryDataProcessor._validate_columns(zoning_gdf, parcels_gdf)`
(`processor.py:125-149`): raises `ValueError` when either schema validation
fails, zoning first. -/
def validate_columns (zoning_gdf parcels_gdf : GeoFrame) : Except PyErr Unit :=
  if (columnValidator_validate zoning_gdf REQUIRED_ZONING_COLUMNS).fst = false then
    .error (.valueError "Missing required zoning columns")
  else if (columnValidator_validate parcels_gdf REQUIRED_PARCEL_COLUMNS).fst = false then
    .error (.valueError "Missing required parcel columns")
  else .ok ()

/-- `CalgaryDataProcessor.process_data` (`processor.py:50-105`) from the point
where both frames are read: fix geometries, validate columns (fatal), validate
zoning codes (advisory, result only logged), harmonize CRS (fatal), validate
spatial relationships (advisory, result only logged), join, report, and return
the joined frame that is then persisted.  File reading, caching and
persistence side effects are outside the model. -/
def process_data (zoning_gdf parcels_gdf : GeoFrame) : Except PyErr GeoFrame :=
  match validate_and_fix_geometries zoning_gdf with
  | .error e => .error e
  | .ok z =>
    match validate_and_fix_geometries parcels_gdf with
    | .error e => .error e
    | .ok p =>
      match validate_columns z p with
      | .error e => .error e
      | .ok _ =>
        let _advisory_codes := zoningValidator_validate z
        match ensure_consistent_crs z p with
        | .error e => .error e
        | .ok (z2, p2) =>
          let _advisory_spatial := spatialValidator_validate z2 p2
          let joined := perform_spatial_join z2 p2
          match generate_report z2 p2 joined with
          | .error e => .error e
          | .ok _ => .ok joined

def nullGeomZoningFrame : GeoFrame :=
  { cols := ["lu_bylaw", "lu_code", "dc_bylaw", "dc_site_no"],
    rows := [{ attrs := [("lu_bylaw", some (Val.str "1P2007")),
                         ("lu_code", some (Val.str "R-C1")),
                         ("dc_bylaw", none), ("dc_site_no", none)],
               geom := none }],
    crs := some "EPSG:32612" }

def nullGeomParcelFrame : GeoFrame :=
  { cols := ["roll_numbe", "address", "land_use_d", "property_t"],
    rows := [{ attrs := [("roll_numbe", some (Val.num 1001)),
                         ("address", some (Val.str "12 AVE SE")),
                         ("land_use_d", none), ("property_t", none)],
               geom := none }],
    crs := some "EPSG:32612" }

def cexEmptyZoning : GeoFrame :=
  { cols := REQUIRED_ZONING_COLUMNS, rows := [], crs := some "EPSG:32612" }

def cexEmptyParcels : GeoFrame :=
  { cols := REQUIRED_PARCEL_COLUMNS, rows := [], crs := some "EPSG:32612" }

def cexEmptyJoined : GeoFrame :=
  { cols := ["index_right"], rows := [], crs := some "EPSG:32612" }

/-- Modelled from the claim's words (spec §4.6/§8): what the left within-join
emits for parcel `i` — one row with null zoning attributes when no zoning
polygon contains the parcel, else one row per containing zoning polygon
carrying that polygon's attributes. -/
def specParcelRows (pf zf : GeoFrame) (i : Nat) : List Feature :=
  let p := pf.rows.getD i default
  let containing := (List.range zf.rows.length).filter
    (fun j => optWithin p.geom ((zf.rows.getD j default).geom))
  if containing.isEmpty then [mkNullJoinRow pf zf p]
  else containing.map (fun j => mkMatchJoinRow pf zf p j (zf.rows.getD j default))

def wZoning : GeoFrame :=
  { cols := REQUIRED_ZONING_COLUMNS,
    rows := [{ attrs := [("lu_bylaw", some (Val.str "1P2007")),
                         ("lu_code", some (Val.str "R-C1")),
                         ("dc_bylaw", some (Val.str "DC123")),
                         ("dc_site_no", some (Val.num 7))],
               geom := some ⟨true, [0, 1]⟩ }],
    crs := some "EPSG:32612" }

def wParcels : GeoFrame :=
  { cols := REQUIRED_PARCEL_COLUMNS,
    rows := [{ attrs := [("roll_numbe", some (Val.num 1001)),
                         ("address", some (Val.str "12 AVE SE")),
                         ("land_use_d", some (Val.str "RES")),
                         ("property_t", some (Val.str "LAND"))],
               geom := some ⟨true, [0]⟩ }],
    crs := some "EPSG:32612" }

def wJoined : GeoFrame :=
  { cols := ["index_right"],
    rows := [{ attrs := [("index_right", some (Val.num 0))],
               geom := some ⟨true, [0]⟩ }],
    crs := some "EPSG:32612" }

def wGeomFixInput : GeoFrame :=
  { cols := [],
    rows := [{ attrs := [], geom := some ⟨false, [1, 2]⟩ },
             { attrs := [], geom := some ⟨true, []⟩ },
             { attrs := [], geom := some ⟨true, [3]⟩ }],
    crs := some "EPSG:32612" }

def wBadZoning : GeoFrame := { cols := [], rows := [], crs := some "EPSG:32612" }

def wOverlapZoning : GeoFrame :=
  { cols := ["lu_code"],
    rows := [{ attrs := [("lu_code", some (Val.str "R-1"))], geom := some ⟨true, [0, 1]⟩ },
             { attrs := [("lu_code", some (Val.str "R-2"))], geom := some ⟨true, [1, 2]⟩ }],
    crs := some "EPSG:32612" }

/-- C4: schema validation returns ok = false if and only if at least one
required column is absent or a present required column is entirely null; in
particular it returns ok = true whenever every required column is present and
has at least one non-null value. -/
theorem c4_schema_validation (gdf : GeoFrame) (required : List String) :
    ((columnValidator_validate gdf required).fst = false ↔
      (∃ c ∈ required, c ∉ gdf.cols) ∨
      (∃ c ∈ required, c ∈ gdf.cols ∧ ∀ r ∈ gdf.rows, getVal r c = none))
    ∧ ((∀ c ∈ required, c ∈ gdf.cols ∧ ∃ r ∈ gdf.rows, (getVal r c).isSome) →
      (columnValidator_validate gdf required).fst = true) := by
  set missing := required.filter (fun c => decide (c ∉ gdf.cols)) with hmissing
  set A := (if missing.isEmpty then ([] : List VIssue)
    else [VIssue.missingColumns missing]) with hA
  set B := required.filterMap (fun c =>
    if c ∈ gdf.cols ∧ gdf.rows.all (fun r => (getVal r c).isNone) then
      some (VIssue.allNull c)
    else none) with hB
  have hfst : (columnValidator_validate gdf required).fst = (A ++ B).isEmpty := rfl
  have hAiff : A ≠ [] ↔ ∃ c ∈ required, c ∉ gdf.cols := by
    rw [hA]
    constructor
    · intro h
      have hm : ¬ missing.isEmpty := by
        intro hemp
        simp [hemp] at h
      rw [List.isEmpty_iff] at hm
      obtain ⟨c, hc⟩ := List.exists_mem_of_ne_nil missing hm
      rw [hmissing, List.mem_filter] at hc
      exact ⟨c, hc.1, by simpa using hc.2⟩
    · rintro ⟨c, hc1, hc2⟩
      have : c ∈ missing := by
        rw [hmissing, List.mem_filter]
        exact ⟨hc1, by simpa using hc2⟩
      have hm : ¬ missing.isEmpty := by
        rw [List.isEmpty_iff]
        exact List.ne_nil_of_mem this
      simp [hm]
  have hBiff : B ≠ [] ↔
      ∃ c ∈ required, c ∈ gdf.cols ∧ ∀ r ∈ gdf.rows, getVal r c = none := by
    rw [hB]
    constructor
    · intro h
      obtain ⟨v, hv⟩ := List.exists_mem_of_ne_nil _ h
      rw [List.mem_filterMap] at hv
      obtain ⟨c, hc, hfc⟩ := hv
      split at hfc
      case isTrue hg =>
        refine ⟨c, hc, hg.1, ?_⟩
        intro r hr
        have := (List.all_eq_true.mp hg.2) r hr
        simpa [Option.isNone_iff_eq_none] using this
      case isFalse hg => cases hfc
    · rintro ⟨c, hc, hcol, hnull⟩
      have hg : c ∈ gdf.cols ∧ gdf.rows.all (fun r => (getVal r c).isNone) := by
        refine ⟨hcol, List.all_eq_true.mpr ?_⟩
        intro r hr
        simpa [Option.isNone_iff_eq_none] using hnull r hr
      have : VIssue.allNull c ∈ required.filterMap (fun c =>
          if c ∈ gdf.cols ∧ gdf.rows.all (fun r => (getVal r c).isNone) then
            some (VIssue.allNull c)
          else none) := by
        rw [List.mem_filterMap]
        exact ⟨c, hc, by simp [hg]⟩
      exact List.ne_nil_of_mem this
  have hmain : (columnValidator_validate gdf required).fst = false ↔
      (∃ c ∈ required, c ∉ gdf.cols) ∨
      (∃ c ∈ required, c ∈ gdf.cols ∧ ∀ r ∈ gdf.rows, getVal r c = none) := by
    rw [hfst, List.isEmpty_eq_false, ← hAiff, ← hBiff]
    constructor
    · intro h
      by_cases ha : A = []
      · right
        intro hb
        exact h (by simp [ha, hb])
      · exact Or.inl ha
    · rintro (h | h) habs
      · exact h (List.append_eq_nil.mp habs).1
      · exact h (List.append_eq_nil.mp habs).2
  refine ⟨hmain, ?_⟩
  intro h
  rcases Bool.eq_false_or_eq_true (columnValidator_validate gdf required).fst with ht | hf
  · exact ht
  · exfalso
    rcases hmain.mp hf with ⟨c, hc, hno⟩ | ⟨c, hc, _, hnull⟩
    · exact hno (h c hc).1
    · obtain ⟨r, hr, hsome⟩ := (h c hc).2
      rw [hnull r hr] at hsome
      simp at hsome

/-- C9: code pattern validation operates only on the `lu_code` column,
returning ok = true with no issues when it is absent; when present, the issue
list carries exactly the count of null codes, of empty-string codes, and of
codes containing a character outside `[A-Z0-9-]`, each issue present exactly
when its count is positive. -/
theorem c9_code_pattern_validation (gdf : GeoFrame) :
    ("lu_code" ∉ gdf.cols → zoningValidator_validate gdf = (true, []))
    ∧ ("lu_code" ∈ gdf.cols → ∀ n : Nat,
      ((VIssue.nullCodes n ∈ (zoningValidator_validate gdf).snd) ↔
        (n = gdf.rows.countP (fun r => (getVal r "lu_code").isNone) ∧ 0 < n))
      ∧ ((VIssue.emptyCodes n ∈ (zoningValidator_validate gdf).snd) ↔
        (n = gdf.rows.countP (fun r => decide (getVal r "lu_code" = some (Val.str ""))) ∧ 0 < n))
      ∧ ((VIssue.invalidChars n ∈ (zoningValidator_validate gdf).snd) ↔
        (n = gdf.rows.countP (fun r => hasInvalidChars (getVal r "lu_code")) ∧ 0 < n))) := by
  constructor
  · intro h
    simp [zoningValidator_validate, h]
  · intro h n
    have hcnt : ∀ p : Option Val → Bool,
        (gdf.rows.map (fun r => getVal r "lu_code")).countP p
          = gdf.rows.countP (fun r => p (getVal r "lu_code")) := by
      intro p
      rw [List.countP_map]
      rfl
    refine ⟨?_, ?_, ?_⟩ <;>
    · simp only [zoningValidator_validate, if_pos h, hcnt, List.mem_append]
      split_ifs <;> simp_all

/-- C7: CRS harmonization returns collections already in the target CRS
unchanged, reprojects exactly those whose CRS differs (on success both come
out tagged with the target CRS and re-harmonizing is a no-op), and raises the
CRS error whenever either collection's CRS is undefined. -/
theorem c7_crs_harmonization (zoning_gdf parcels_gdf : GeoFrame) :
    ((zoning_gdf.crs = some TARGET_CRS ∧ parcels_gdf.crs = some TARGET_CRS) →
      ensure_consistent_crs zoning_gdf parcels_gdf = .ok (zoning_gdf, parcels_gdf))
    ∧ (∀ z p, ensure_consistent_crs zoning_gdf parcels_gdf = .ok (z, p) →
      z.crs = some TARGET_CRS ∧ p.crs = some TARGET_CRS
        ∧ (zoning_gdf.crs = some TARGET_CRS → z = zoning_gdf)
        ∧ (parcels_gdf.crs = some TARGET_CRS → p = parcels_gdf)
        ∧ ensure_consistent_crs z p = .ok (z, p))
    ∧ ((zoning_gdf.crs = none ∨ parcels_gdf.crs = none) →
      ensure_consistent_crs zoning_gdf parcels_gdf
        = .error (.valueError "Cannot transform naive geometries")) := by
  refine ⟨?_, ?_, ?_⟩
  · rintro ⟨hz, hp⟩
    simp [ensure_consistent_crs, hz, hp]
  · intro z p hok
    unfold ensure_consistent_crs at hok
    by_cases hz : zoning_gdf.crs = some TARGET_CRS
    · rw [if_neg (by simp [hz])] at hok
      by_cases hp : parcels_gdf.crs = some TARGET_CRS
      · rw [if_neg (by simp [hp])] at hok
        simp at hok
        obtain ⟨hz2, hp2⟩ := hok
        subst hz2; subst hp2
        refine ⟨hz, hp, fun _ => rfl, fun _ => rfl, ?_⟩
        simp [ensure_consistent_crs, hz, hp]
      · rw [if_pos (by simp [hp])] at hok
        unfold to_crs at hok
        cases hcp : parcels_gdf.crs with
        | none => rw [hcp] at hok; cases hok
        | some c =>
          rw [hcp] at hok
          simp at hok
          obtain ⟨hz2, hp2⟩ := hok
          subst hz2; subst hp2
          refine ⟨hz, rfl, fun _ => rfl, fun hh => absurd (hcp.trans hh) hp, ?_⟩
          simp [ensure_consistent_crs, hz]
    · rw [if_pos (by simp [hz])] at hok
      unfold to_crs at hok
      cases hcz : zoning_gdf.crs with
      | none => rw [hcz] at hok; cases hok
      | some c =>
        rw [hcz] at hok
        by_cases hp : parcels_gdf.crs = some TARGET_CRS
        · rw [if_neg (by simp [hp])] at hok
          simp at hok
          obtain ⟨hz2, hp2⟩ := hok
          subst hz2; subst hp2
          refine ⟨rfl, hp, fun hh => absurd (hcz.trans hh) hz, fun _ => rfl, ?_⟩
          simp [ensure_consistent_crs, hp]
        · rw [if_pos (by simp [hp])] at hok
          cases hcp : parcels_gdf.crs with
          | none => rw [hcp] at hok; cases hok
          | some d =>
            rw [hcp] at hok
            simp at hok
            obtain ⟨hz2, hp2⟩ := hok
            subst hz2; subst hp2
            refine ⟨rfl, rfl, fun hh => absurd (hcz.trans hh) hz,
              fun hh => absurd (hcp.trans hh) hp, ?_⟩
            simp [ensure_consistent_crs]
  · intro h
    cases hcz : zoning_gdf.crs with
    | none => simp [ensure_consistent_crs, to_crs, hcz]
    | some c =>
      have hp : parcels_gdf.crs = none := by
        rcases h with hz | hp
        · rw [hcz] at hz; cases hz
        · exact hp
      by_cases hzt : c = TARGET_CRS
      · subst hzt
        simp [ensure_consistent_crs, to_crs, hcz, hp]
      · simp [ensure_consistent_crs, to_crs, hcz, hp, hzt]

lemma mapE_fixRowMakeValid_ok (rows : List Feature) (h : ∀ r ∈ rows, r.geom ≠ none) :
    mapE fixRowMakeValid rows = .ok (rows.map fixRowMakeValidPure) := by
  induction rows with
  | nil => rfl
  | cons a as ih =>
    obtain ⟨g, hg⟩ : ∃ g, a.geom = some g := by
      cases hga : a.geom with
      | none => exact absurd hga (h a (by simp))
      | some g => exact ⟨g, rfl⟩
    simp [mapE, fixRowMakeValid, fixRowMakeValidPure, hg,
      ih (fun r hr => h r (by simp [hr]))]

lemma mapE_fixRowMakeValid_id (rows : List Feature)
    (h : ∀ r ∈ rows, ∃ g, r.geom = some g ∧ g.isValid = true) :
    mapE fixRowMakeValid rows = .ok rows := by
  induction rows with
  | nil => rfl
  | cons a as ih =>
    obtain ⟨g, hg, hv⟩ := h a (by simp)
    have hrow : fixRowMakeValid a = .ok a := by
      cases a with
      | mk attrs geom =>
        simp at hg
        subst hg
        simp [fixRowMakeValid, hv]
    simp [mapE, hrow, ih (fun r hr => h r (by simp [hr]))]

lemma mapE_bufFixRow_ok (rows : List Feature) (h : ∀ r ∈ rows, r.geom ≠ none) :
    mapE bufFixRow rows = .ok (rows.map bufFixRowPure) := by
  induction rows with
  | nil => rfl
  | cons a as ih =>
    obtain ⟨g, hg⟩ : ∃ g, a.geom = some g := by
      cases hga : a.geom with
      | none => exact absurd hga (h a (by simp))
      | some g => exact ⟨g, rfl⟩
    have hrow : bufFixRow a = .ok (bufFixRowPure a) := by
      by_cases hv : optIsValid a.geom
      · simp [bufFixRow, bufFixRowPure, hv]
      · rw [hg] at hv
        simp [bufFixRow, bufFixRowPure, hg, hv]
    simp [mapE, hrow, ih (fun r hr => h r (by simp [hr]))]

/-- C5: for every collection, the geometry fix operation yields a collection
containing no invalid and no empty geometry, and applying fix to its own
output returns the output unchanged.  Established here for every collection
whose geometries are all non-null; on a null geometry `fix_issues` raises
(see the counterexample). -/
theorem c5_fix_valid_nonempty_idempotent (gdf : GeoFrame)
    (h : ∀ r ∈ gdf.rows, r.geom ≠ none) :
    ∃ out, fix_issues gdf = .ok out
      ∧ (∀ r ∈ out.rows, optIsValid r.geom = true ∧ rowIsEmpty r = false)
      ∧ fix_issues out = .ok out := by
  refine ⟨{ gdf with rows :=
    (gdf.rows.map fixRowMakeValidPure).filter (fun r => !(rowIsEmpty r)) }, ?_, ?_, ?_⟩
  · unfold fix_issues
    rw [mapE_fixRowMakeValid_ok gdf.rows h]
  · intro r hr
    rw [List.mem_filter] at hr
    obtain ⟨hmem, hemp⟩ := hr
    rw [List.mem_map] at hmem
    obtain ⟨r0, hr0, hpure⟩ := hmem
    obtain ⟨g, hg⟩ : ∃ g, r0.geom = some g := by
      cases hga : r0.geom with
      | none => exact absurd hga (h r0 hr0)
      | some g => exact ⟨g, rfl⟩
    constructor
    · rw [← hpure]
      by_cases hv : g.isValid
      · simp [fixRowMakeValidPure, hg, hv, optIsValid]
      · simp [fixRowMakeValidPure, hg, hv, optIsValid, Geom.makeValid]
    · simpa using hemp
  · have hall : ∀ r ∈ (gdf.rows.map fixRowMakeValidPure).filter
        (fun r => !(rowIsEmpty r)), ∃ g, r.geom = some g ∧ g.isValid = true := by
      intro r hr
      rw [List.mem_filter] at hr
      obtain ⟨hmem, _⟩ := hr
      rw [List.mem_map] at hmem
      obtain ⟨r0, hr0, hpure⟩ := hmem
      obtain ⟨g, hg⟩ : ∃ g, r0.geom = some g := by
        cases hga : r0.geom with
        | none => exact absurd hga (h r0 hr0)
        | some g => exact ⟨g, rfl⟩
      refine ⟨if g.isValid then g else g.makeValid, ?_, ?_⟩
      · rw [← hpure]; simp [fixRowMakeValidPure, hg]
      · by_cases hv : g.isValid
        · simp [hv]
        · simp [hv, Geom.makeValid]
    have hfilter : ∀ r ∈ (gdf.rows.map fixRowMakeValidPure).filter
        (fun r => !(rowIsEmpty r)), (!(rowIsEmpty r)) = true := by
      intro r hr
      exact (List.mem_filter.mp hr).2
    unfold fix_issues
    rw [mapE_fixRowMakeValid_id _ hall]
    simp only [List.filter_eq_self.mpr hfilter]

/-- C6 (amended): the orchestrator's geometry validation-and-repair stage
returns normally on every collection whose geometries are all non-null and
that stays at or below the 10,000-feature parallelization threshold, and
every surviving row is an input row whose geometry is either untouched or an
invalid geometry downgraded by a zero-distance buffer.  Above the threshold
the parallel branch raises a `PicklingError` whenever an invalid geometry is
present, and on a null geometry the sequential repair raises an
`AttributeError`. -/
theorem c6_geometry_stage_no_raise (gdf : GeoFrame)
    (h : ∀ r ∈ gdf.rows, r.geom ≠ none)
    (hsize : gdf.rows.length ≤ 10000) :
    ∃ out, validate_and_fix_geometries gdf = .ok out
      ∧ ∀ r ∈ out.rows, ∃ r' ∈ gdf.rows, r.attrs = r'.attrs ∧
          (r.geom = r'.geom ∨
            ∃ g, r'.geom = some g ∧ g.isValid = false ∧ r.geom = some g.buffer0) := by
  have hsize' : ¬ gdf.rows.length > 10000 := by omega
  by_cases hmask : gdf.rows.any (fun r => !(optIsValid r.geom))
  · refine ⟨{ gdf with rows :=
      (gdf.rows.map bufFixRowPure).filter (fun r => !(rowIsEmpty r)) }, ?_, ?_⟩
    · unfold validate_and_fix_geometries
      rw [if_pos hmask, if_neg hsize', mapE_bufFixRow_ok gdf.rows h]
    · intro r hr
      rw [List.mem_filter] at hr
      obtain ⟨hmem, _⟩ := hr
      rw [List.mem_map] at hmem
      obtain ⟨r0, hr0, hpure⟩ := hmem
      refine ⟨r0, hr0, ?_, ?_⟩
      · rw [← hpure]
        by_cases hv : optIsValid r0.geom
        · simp [bufFixRowPure, hv]
        · obtain ⟨g, hg⟩ : ∃ g, r0.geom = some g := by
            cases hga : r0.geom with
            | none => exact absurd hga (h r0 hr0)
            | some g => exact ⟨g, rfl⟩
          rw [hg] at hv
          simp [bufFixRowPure, hg, hv]
      · by_cases hv : optIsValid r0.geom
        · left
          rw [← hpure]
          simp [bufFixRowPure, hv]
        · right
          obtain ⟨g, hg⟩ : ∃ g, r0.geom = some g := by
            cases hga : r0.geom with
            | none => exact absurd hga (h r0 hr0)
            | some g => exact ⟨g, rfl⟩
          have hgv : g.isValid = false := by
            rw [hg] at hv
            simpa [optIsValid] using hv
          refine ⟨g, hg, hgv, ?_⟩
          rw [← hpure]
          rw [hg] at hv
          simp [bufFixRowPure, hg, hv, hgv]
  · refine ⟨gdf, ?_, ?_⟩
    · unfold validate_and_fix_geometries
      rw [if_neg hmask]
    · intro r hr
      exact ⟨r, hr, rfl, Or.inl rfl⟩

/-- C5 (counterexample): on a collection containing a null geometry, the fix
operation raises an `AttributeError` (the elementwise repair reads
`x.is_valid` on `None`) instead of yielding a repaired collection. -/
theorem c5_counterexample_null_geometry :
    fix_issues nullGeomZoningFrame = .error (.attributeError "is_valid") := rfl

/-- C6 (counterexample): the validation-and-repair stage raises an
`AttributeError` on a collection containing a null geometry: the vectorized
invalidity mask marks the null row invalid and the repair lambda then reads
`x.is_valid` on `None`. -/
theorem c6_counterexample_null_geometry :
    validate_and_fix_geometries nullGeomParcelFrame
      = .error (.attributeError "is_valid") := rfl

lemma mapE_colCompleteness_ok (gdf : GeoFrame) (cols : List String)
    (h : ∀ c ∈ cols, c ∈ gdf.cols) :
    mapE (colCompleteness gdf) cols = .ok (cols.map (fun c => (c,
      if gdf.rows.length = 0 then (none : Option ℚ)
      else some ((1 - (gdf.rows.countP (fun r => (getVal r c).isNone) : ℚ)
          / (gdf.rows.length : ℚ)) * 100)))) := by
  induction cols with
  | nil => rfl
  | cons c cs ih =>
    have hc : c ∈ gdf.cols := h c (by simp)
    simp [mapE, colCompleteness, hc, ih (fun d hd => h d (by simp [hd]))]

/-- C1 (amended): when the joined frame carries the join-index column, the
required columns are present and the parcel frame is non-empty, the report is
produced and its join coverage percentage (and the two completeness
percentages) equal `100 * matched / total`.  When the parcel frame is empty
the reporter raises a `ZeroDivisionError` instead of reporting 0 (see the
counterexample). -/
theorem c1_report_join_coverage (zoning_gdf parcels_gdf joined_gdf : GeoFrame)
    (hz : ∀ c ∈ REQUIRED_ZONING_COLUMNS, c ∈ zoning_gdf.cols)
    (hp : ∀ c ∈ REQUIRED_PARCEL_COLUMNS, c ∈ parcels_gdf.cols)
    (hj : "index_right" ∈ joined_gdf.cols)
    (hn : 0 < parcels_gdf.rows.length) :
    ∃ r, generate_report zoning_gdf parcels_gdf joined_gdf = .ok r
      ∧ r.spatial_metrics.join_metrics.parcels_with_zoning = parcelsWithZoning joined_gdf
      ∧ r.spatial_metrics.join_metrics.coverage_percentage
          = 100 * (parcelsWithZoning joined_gdf : ℚ) / (parcels_gdf.rows.length : ℚ)
      ∧ r.data_completeness.spatial_join_completeness
          = 100 * (parcelsWithZoning joined_gdf : ℚ) / (parcels_gdf.rows.length : ℚ)
      ∧ r.data_completeness.missing_zoning_info
          = 100 * (parcelsWithoutZoning joined_gdf : ℚ) / (parcels_gdf.rows.length : ℚ) := by
  have hn' : parcels_gdf.rows.length ≠ 0 := Nat.pos_iff_ne_zero.mp hn
  have hsm : generate_spatial_metrics zoning_gdf parcels_gdf joined_gdf
      = .ok { zoning_coverage := coverageStats zoning_gdf,
              parcel_coverage := coverageStats parcels_gdf,
              join_metrics :=
                { parcels_with_zoning := parcelsWithZoning joined_gdf,
                  parcels_without_zoning := parcelsWithoutZoning joined_gdf,
                  coverage_percentage :=
                    (parcelsWithZoning joined_gdf : ℚ)
                      / (parcels_gdf.rows.length : ℚ) * 100 } } := by
    simp [generate_spatial_metrics, hj, hn']
  have hcm : generate_completeness_metrics zoning_gdf parcels_gdf joined_gdf
      = .ok { zoning_required := REQUIRED_ZONING_COLUMNS.map (fun c => (c,
                if zoning_gdf.rows.length = 0 then (none : Option ℚ)
                else some ((1 - (zoning_gdf.rows.countP
                    (fun r => (getVal r c).isNone) : ℚ)
                  / (zoning_gdf.rows.length : ℚ)) * 100))),
              parcels_required := REQUIRED_PARCEL_COLUMNS.map (fun c => (c,
                if parcels_gdf.rows.length = 0 then (none : Option ℚ)
                else some ((1 - (parcels_gdf.rows.countP
                    (fun r => (getVal r c).isNone) : ℚ)
                  / (parcels_gdf.rows.length : ℚ)) * 100))),
              spatial_join_completeness :=
                (parcelsWithZoning joined_gdf : ℚ)
                  / (parcels_gdf.rows.length : ℚ) * 100,
              missing_zoning_info :=
                (parcelsWithoutZoning joined_gdf : ℚ)
                  / (parcels_gdf.rows.length : ℚ) * 100 } := by
    unfold generate_completeness_metrics
    rw [mapE_colCompleteness_ok zoning_gdf _ hz, mapE_colCompleteness_ok parcels_gdf _ hp]
    simp [hj, hn']
  refine ⟨
    { input_zoning := generate_dataset_report zoning_gdf
      input_parcels := generate_dataset_report parcels_gdf
      output_data := generate_dataset_report joined_gdf
      spatial_metrics :=
        { zoning_coverage := coverageStats zoning_gdf
          parcel_coverage := coverageStats parcels_gdf
          join_metrics :=
            { parcels_with_zoning := parcelsWithZoning joined_gdf
              parcels_without_zoning := parcelsWithoutZoning joined_gdf
              coverage_percentage :=
                (parcelsWithZoning joined_gdf : ℚ)
                  / (parcels_gdf.rows.length : ℚ) * 100 } }
      data_completeness :=
        { zoning_required := REQUIRED_ZONING_COLUMNS.map (fun c => (c,
            if zoning_gdf.rows.length = 0 then (none : Option ℚ)
            else some ((1 - (zoning_gdf.rows.countP
                (fun r => (getVal r c).isNone) : ℚ)
              / (zoning_gdf.rows.length : ℚ)) * 100)))
          parcels_required := REQUIRED_PARCEL_COLUMNS.map (fun c => (c,
            if parcels_gdf.rows.length = 0 then (none : Option ℚ)
            else some ((1 - (parcels_gdf.rows.countP
                (fun r => (getVal r c).isNone) : ℚ)
              / (parcels_gdf.rows.length : ℚ)) * 100)))
          spatial_join_completeness :=
            (parcelsWithZoning joined_gdf : ℚ)
              / (parcels_gdf.rows.length : ℚ) * 100
          missing_zoning_info :=
            (parcelsWithoutZoning joined_gdf : ℚ)
              / (parcels_gdf.rows.length : ℚ) * 100 } },
    ?_, ?_, ?_, ?_, ?_⟩
  · unfold generate_report
    rw [hsm, hcm]
  · rfl
  · show (parcelsWithZoning joined_gdf : ℚ) / (parcels_gdf.rows.length : ℚ) * 100
      = 100 * (parcelsWithZoning joined_gdf : ℚ) / (parcels_gdf.rows.length : ℚ)
    ring
  · show (parcelsWithZoning joined_gdf : ℚ) / (parcels_gdf.rows.length : ℚ) * 100
      = 100 * (parcelsWithZoning joined_gdf : ℚ) / (parcels_gdf.rows.length : ℚ)
    ring
  · show (parcelsWithoutZoning joined_gdf : ℚ) / (parcels_gdf.rows.length : ℚ) * 100
      = 100 * (parcelsWithoutZoning joined_gdf : ℚ) / (parcels_gdf.rows.length : ℚ)
    ring

/-- C1 (counterexample): on an empty parcel collection the reporter raises a
`ZeroDivisionError` (the percentage metrics are not reported as 0). -/
theorem c1_counterexample_empty_parcels :
    generate_report cexEmptyZoning cexEmptyParcels cexEmptyJoined
      = .error .zeroDivisionError := by
  rfl

/-- C2: whenever the raw joined frame has a zoning-prefixed column, the
post-join projection drops `index_right`; report generation on the projected
frame then raises an `AttributeError`, and indeed it raises on every joined
frame not carrying `index_right`. -/
theorem c2_projection_drops_join_index (zoning_gdf parcels_gdf : GeoFrame)
    (h : ∃ c ∈ (sjoinLeftWithin parcels_gdf zoning_gdf).cols, isZoningColumn c = true) :
    "index_right" ∉ (perform_spatial_join zoning_gdf parcels_gdf).cols
    ∧ generate_report zoning_gdf parcels_gdf (perform_spatial_join zoning_gdf parcels_gdf)
        = .error (.attributeError "index_right")
    ∧ ∀ jf : GeoFrame, "index_right" ∉ jf.cols →
        generate_report zoning_gdf parcels_gdf jf = .error (.attributeError "index_right") := by
  have hgen : ∀ jf : GeoFrame, "index_right" ∉ jf.cols →
      generate_report zoning_gdf parcels_gdf jf
        = .error (.attributeError "index_right") := by
    intro jf hj
    have : generate_spatial_metrics zoning_gdf parcels_gdf jf
        = .error (.attributeError "index_right") := by
      simp [generate_spatial_metrics, hj]
    simp [generate_report, this]
  have hdrop : "index_right" ∉ (perform_spatial_join zoning_gdf parcels_gdf).cols := by
    obtain ⟨c, hc, hzc⟩ := h
    have hne : ((sjoinLeftWithin parcels_gdf zoning_gdf).cols.filter
        isZoningColumn).isEmpty = false := by
      rw [List.isEmpty_eq_false]
      exact List.ne_nil_of_mem (List.mem_filter.mpr ⟨hc, hzc⟩)
    have hcols : (perform_spatial_join zoning_gdf parcels_gdf).cols
        = (sjoinLeftWithin parcels_gdf zoning_gdf).cols.filter isZoningColumn
          ++ REQUIRED_PARCEL_COLUMNS.filter
            (fun c => decide (c ∈ (sjoinLeftWithin parcels_gdf zoning_gdf).cols)) := by
      simp only [perform_spatial_join, hne, Bool.false_eq_true, if_false]
    rw [hcols]
    intro hmem
    rw [List.mem_append] at hmem
    rcases hmem with hmem | hmem
    · have : isZoningColumn "index_right" = true := (List.mem_filter.mp hmem).2
      simp [isZoningColumn, zoningColPrefixes, List.isPrefixOf] at this
    · have : "index_right" ∈ REQUIRED_PARCEL_COLUMNS := List.mem_of_mem_filter hmem
      simp [REQUIRED_PARCEL_COLUMNS] at this
  exact ⟨hdrop, hgen _ hdrop, hgen⟩

/-- C8: if schema validation fails for either geometry-fixed input collection,
the orchestrator raises the corresponding `ValueError`; the `Except`
short-circuit means the run aborts before the spatial join, the report and
persistence are ever reached (a `.error` result carries no joined frame). -/
theorem c8_schema_failure_aborts (zoning_gdf parcels_gdf z p : GeoFrame)
    (hz : validate_and_fix_geometries zoning_gdf = .ok z)
    (hp : validate_and_fix_geometries parcels_gdf = .ok p)
    (hfail : (columnValidator_validate z REQUIRED_ZONING_COLUMNS).fst = false
      ∨ (columnValidator_validate p REQUIRED_PARCEL_COLUMNS).fst = false) :
    process_data zoning_gdf parcels_gdf
        = .error (.valueError "Missing required zoning columns")
    ∨ process_data zoning_gdf parcels_gdf
        = .error (.valueError "Missing required parcel columns") := by
  by_cases h1 : (columnValidator_validate z REQUIRED_ZONING_COLUMNS).fst = false
  · left
    have hvc : validate_columns z p
        = .error (.valueError "Missing required zoning columns") := by
      unfold validate_columns
      rw [if_pos h1]
    simp [process_data, hz, hp, hvc]
  · right
    have h2 : (columnValidator_validate p REQUIRED_PARCEL_COLUMNS).fst = false := by
      rcases hfail with hf | hf
      · exact absurd hf h1
      · exact hf
    have hvc : validate_columns z p
        = .error (.valueError "Missing required parcel columns") := by
      unfold validate_columns
      rw [if_neg h1, if_pos h2]
    simp [process_data, hz, hp, hvc]

lemma filterMap_if_mem (l : List Nat) (w : Nat → Bool) :
    l.filterMap (fun j => if w j then some j else none) = l.filter w := by
  induction l with
  | nil => rfl
  | cons a l ih =>
    by_cases hw : w a <;> simp [List.filterMap_cons, List.filter_cons, hw, ih]

lemma filter_fst_pairs (l : List Nat) (i i' : Nat) (w : Nat → Bool) :
    ((l.filterMap (fun j => if w j then some (i', j) else none)).filter
        (fun q => q.fst == i))
      = if i' = i then l.filterMap (fun j => if w j then some (i', j) else none)
        else [] := by
  induction l with
  | nil => simp
  | cons a l ih =>
    by_cases hw : w a
    · by_cases hii : i' = i
      · subst hii
        simp [List.filterMap_cons, List.filter_cons, hw, ih]
      · simp only [List.filterMap_cons, hw, if_pos, List.filter_cons]
        have : ((i', a).fst == i) = false := by
          simp [hii]
        simp [this, ih, hii]
    · simp [List.filterMap_cons, hw, ih]

lemma flatMap_if_single {β : Type} (l : List Nat) (hl : l.Nodup) (i : Nat)
    (u : Nat → List β) :
    (l.flatMap (fun i' => if i' = i then u i' else [])) = if i ∈ l then u i else [] := by
  induction l with
  | nil => simp
  | cons a l ih =>
    rw [List.nodup_cons] at hl
    by_cases ha : a = i
    · subst ha
      have hnotin : a ∉ l := hl.1
      have hinner : l.flatMap (fun i' => if i' = a then u i' else []) = [] := by
        rw [ih hl.2, if_neg hnotin]
      simp [List.flatMap_cons, hinner]
    · have : i ∈ a :: l ↔ i ∈ l := by
        simp [List.mem_cons]
        intro hia
        exact absurd hia.symm ha
      simp [List.flatMap_cons, ha, ih hl.2, this]

lemma joinPairs_filter_map (pf zf : GeoFrame) (i : Nat) (hi : i < pf.rows.length) :
    ((joinPairs pf zf).filter (fun q => q.fst == i)).map (fun q => q.snd)
      = (List.range zf.rows.length).filter
          (fun j => optWithin (pf.rows.getD i default).geom
            ((zf.rows.getD j default).geom)) := by
  unfold joinPairs
  rw [List.filter_flatMap]
  have hpt : ∀ i' ∈ List.range pf.rows.length,
      ((List.range zf.rows.length).filterMap (fun j =>
          if optWithin (pf.rows.getD i' default).geom ((zf.rows.getD j default).geom)
          then some (i', j) else none)).filter (fun q => q.fst == i)
        = if i' = i then (List.range zf.rows.length).filterMap (fun j =>
            if optWithin (pf.rows.getD i' default).geom ((zf.rows.getD j default).geom)
            then some (i', j) else none)
          else [] := by
    intro i' _
    exact filter_fst_pairs _ i i' _
  rw [List.flatMap_congr hpt]
  rw [flatMap_if_single _ (List.nodup_range _) i _, if_pos (List.mem_range.mpr hi)]
  rw [List.map_filterMap]
  have hpt2 : ∀ j ∈ List.range zf.rows.length,
      ((if optWithin (pf.rows.getD i default).geom ((zf.rows.getD j default).geom)
        then some (i, j) else none).map (fun q : Nat × Nat => q.snd))
        = if optWithin (pf.rows.getD i default).geom ((zf.rows.getD j default).geom)
          then some j else none := by
    intro j _
    by_cases hw : optWithin (pf.rows.getD i default).geom ((zf.rows.getD j default).geom)
      <;> simp [hw]
  rw [List.filterMap_congr hpt2, filterMap_if_mem]

lemma length_filter_range_countP (l : List Feature) (w : Feature → Bool) :
    ((List.range l.length).filter (fun j => w (l.getD j default))).length
      = l.countP w := by
  induction l with
  | nil => simp
  | cons a l ih =>
    rw [List.length_cons, List.range_succ_eq_map, List.filter_cons, List.countP_cons]
    have hcomp : ((List.range l.length).map Nat.succ).filter
        (fun j => w ((a :: l).getD j default))
        = ((List.range l.length).filter (fun j => w (l.getD j default))).map Nat.succ := by
      rw [List.map_filter]
      have hfun : ((fun j => w ((a :: l).getD j default)) ∘ Nat.succ)
          = fun j => w (l.getD j default) := by
        funext j
        simp [Function.comp, List.getD_cons_succ]
      rw [hfun]
    simp only [List.getD_cons_zero]
    rw [hcomp]
    by_cases hw : w a
    · rw [if_pos hw, if_pos hw, List.length_cons, List.length_map, ih]
    · rw [if_neg hw, if_neg hw, List.length_map, ih]
      omega

/-- C3: the spatial join is a left join on the `within` predicate: its output
decomposes parcel by parcel, a parcel contained in zero zoning polygons
appearing exactly once with null zoning attributes and null join index, a
parcel contained in exactly one zoning polygon appearing exactly once with
that polygon's attributes, and a parcel contained in `k` polygons appearing
`k` times. -/
theorem c3_spatial_join_left_semantics (pf zf : GeoFrame)
    (hcrs : pf.crs = zf.crs) (hdef : pf.crs ≠ none) :
    (sjoinLeftWithin pf zf).rows
        = (List.range pf.rows.length).flatMap (specParcelRows pf zf)
    ∧ ∀ i, i < pf.rows.length →
        (specParcelRows pf zf i).length
            = max 1 (zf.rows.countP (fun z =>
                optWithin (pf.rows.getD i default).geom z.geom))
        ∧ (zf.rows.countP (fun z =>
              optWithin (pf.rows.getD i default).geom z.geom) = 0 →
            specParcelRows pf zf i = [mkNullJoinRow pf zf (pf.rows.getD i default)])
        ∧ (zf.rows.countP (fun z =>
              optWithin (pf.rows.getD i default).geom z.geom) = 1 →
            ∃ j, j < zf.rows.length
              ∧ optWithin (pf.rows.getD i default).geom
                  ((zf.rows.getD j default).geom) = true
              ∧ specParcelRows pf zf i
                  = [mkMatchJoinRow pf zf (pf.rows.getD i default) j
                      (zf.rows.getD j default)]) := by
  constructor
  · show (List.range pf.rows.length).flatMap _ = _
    apply List.flatMap_congr
    intro i hi
    rw [joinPairs_filter_map pf zf i (List.mem_range.mp hi)]
    rfl
  · intro i hi
    have hk := length_filter_range_countP zf.rows
      (fun z => optWithin (pf.rows.getD i default).geom z.geom)
    simp only [] at hk
    refine ⟨?_, ?_, ?_⟩
    · simp only [specParcelRows]
      by_cases hemp : ((List.range zf.rows.length).filter
          (fun j => optWithin (pf.rows.getD i default).geom
            ((zf.rows.getD j default).geom))).isEmpty
      · have hnil := List.isEmpty_iff.mp hemp
        rw [hnil] at hk
        have h0 := hk.symm
        rw [List.length_nil] at h0
        rw [if_pos hemp, h0]
        simp
      · have hne : ((List.range zf.rows.length).filter
            (fun j => optWithin (pf.rows.getD i default).geom
              ((zf.rows.getD j default).geom))) ≠ [] := by
          intro hcontra
          exact hemp (by rw [hcontra]; rfl)
        have hpos : 0 < zf.rows.countP (fun z =>
            optWithin (pf.rows.getD i default).geom z.geom) := by
          rw [← hk]
          exact List.length_pos.mpr hne
        rw [if_neg hemp, List.length_map, hk]
        exact (Nat.max_eq_right hpos).symm
    · intro h0
      rw [h0] at hk
      have hnil := List.length_eq_zero.mp hk
      simp only [specParcelRows]
      rw [if_pos (List.isEmpty_iff.mpr hnil)]
    · intro h1
      rw [h1] at hk
      obtain ⟨j, hj⟩ := List.length_eq_one.mp hk
      have hjmem : j ∈ (List.range zf.rows.length).filter
          (fun j => optWithin (pf.rows.getD i default).geom
            ((zf.rows.getD j default).geom)) := by
        rw [hj]
        exact List.mem_singleton_self j
      rw [List.mem_filter, List.mem_range] at hjmem
      refine ⟨j, hjmem.1, hjmem.2, ?_⟩
      simp only [specParcelRows]
      rw [hj]
      rfl

/-- C10: the spatial relationship validator flags overlapping districts
exactly when the self-overlay has more features than the zoning frame, and in
that case two distinct zoning polygons genuinely overlap (have a non-empty
pairwise intersection). -/
theorem c10_overlap_heuristic (zoning_gdf parcels_gdf : GeoFrame) :
    (VIssue.overlappingDistricts ∈ (spatialValidator_validate zoning_gdf parcels_gdf).snd ↔
      (overlayIntersectionPairs zoning_gdf zoning_gdf).length > zoning_gdf.rows.length)
    ∧ ((overlayIntersectionPairs zoning_gdf zoning_gdf).length > zoning_gdf.rows.length →
      ∃ i j, i < zoning_gdf.rows.length ∧ j < zoning_gdf.rows.length ∧ i ≠ j
        ∧ optIntersects ((zoning_gdf.rows.getD i default).geom)
            ((zoning_gdf.rows.getD j default).geom) = true) := by
  constructor
  · by_cases hcond : (overlayIntersectionPairs zoning_gdf zoning_gdf).length
        > zoning_gdf.rows.length
    · simp only [spatialValidator_validate, if_pos hcond]
      constructor
      · intro _
        exact hcond
      · intro _
        simp [List.mem_append]
    · simp only [spatialValidator_validate, if_neg hcond]
      constructor
      · intro hmem
        simp only [List.nil_append] at hmem
        exfalso
        by_cases hunz : (sjoinLeftWithin parcels_gdf zoning_gdf).rows.countP
            (fun r => (getVal r "index_right").isNone) > 0
        · rw [if_pos hunz] at hmem
          simp at hmem
        · rw [if_neg hunz] at hmem
          simp at hmem
      · intro habs
        exact absurd habs hcond
  · intro hgt
    by_contra hno
    push_neg at hno
    have hbound : (overlayIntersectionPairs zoning_gdf zoning_gdf).length
        ≤ zoning_gdf.rows.length := by
      unfold overlayIntersectionPairs
      rw [List.length_flatMap]
      have heach : ∀ x ∈ (List.range zoning_gdf.rows.length).map
          (List.length ∘ fun i => (List.range zoning_gdf.rows.length).filterMap (fun j =>
            if optIntersects ((zoning_gdf.rows.getD i default).geom)
                ((zoning_gdf.rows.getD j default).geom) then some (i, j) else none)),
          x ≤ 1 := by
        intro x hx
        rw [List.mem_map] at hx
        obtain ⟨i, hi, hxe⟩ := hx
        rw [List.mem_range] at hi
        rw [← hxe]
        show ((List.range zoning_gdf.rows.length).filterMap (fun j =>
          if optIntersects ((zoning_gdf.rows.getD i default).geom)
              ((zoning_gdf.rows.getD j default).geom)
          then some (i, j) else none)).length ≤ 1
        rw [List.length_filterMap_eq_countP]
        have hle : (List.range zoning_gdf.rows.length).countP (fun j =>
            (if optIntersects ((zoning_gdf.rows.getD i default).geom)
                ((zoning_gdf.rows.getD j default).geom)
            then some (i, j) else none).isSome)
            ≤ (List.range zoning_gdf.rows.length).countP (fun j => j == i) := by
          apply List.countP_mono_left
          intro j hj hsome
          rw [List.mem_range] at hj
          by_cases hij : j = i
          · simp [hij]
          · exfalso
            have hfalse := hno i j hi hj (fun he => hij he.symm)
            rw [if_neg hfalse] at hsome
            simp at hsome
        have hcount : (List.range zoning_gdf.rows.length).countP (fun j => j == i)
            = List.count i (List.range zoning_gdf.rows.length) := rfl
        calc (List.range zoning_gdf.rows.length).countP (fun j =>
            (if optIntersects ((zoning_gdf.rows.getD i default).geom)
                ((zoning_gdf.rows.getD j default).geom)
            then some (i, j) else none).isSome)
            ≤ (List.range zoning_gdf.rows.length).countP (fun j => j == i) := hle
          _ = List.count i (List.range zoning_gdf.rows.length) := hcount
          _ ≤ 1 := List.nodup_iff_count_le_one.mp (List.nodup_range _) i
      have hsum := List.sum_le_card_nsmul _ 1 heach
      simpa using hsum
    omega

theorem c1_witness :
    ∃ r, generate_report wZoning wParcels wJoined = .ok r
      ∧ r.spatial_metrics.join_metrics.parcels_with_zoning = parcelsWithZoning wJoined
      ∧ r.spatial_metrics.join_metrics.coverage_percentage
          = 100 * (parcelsWithZoning wJoined : ℚ) / (wParcels.rows.length : ℚ)
      ∧ r.data_completeness.spatial_join_completeness
          = 100 * (parcelsWithZoning wJoined : ℚ) / (wParcels.rows.length : ℚ)
      ∧ r.data_completeness.missing_zoning_info
          = 100 * (parcelsWithoutZoning wJoined : ℚ) / (wParcels.rows.length : ℚ) :=
  c1_report_join_coverage wZoning wParcels wJoined
    (by decide) (by decide) (by decide) (by decide)

theorem c2_witness :
    "index_right" ∉ (perform_spatial_join wZoning wParcels).cols :=
  (c2_projection_drops_join_index wZoning wParcels
    ⟨"lu_bylaw", by decide, by decide⟩).1

theorem c3_witness :
    (sjoinLeftWithin wParcels wZoning).rows
      = (List.range wParcels.rows.length).flatMap (specParcelRows wParcels wZoning) :=
  (c3_spatial_join_left_semantics wParcels wZoning rfl (by decide)).1

theorem c4_witness :
    (columnValidator_validate wZoning REQUIRED_ZONING_COLUMNS).fst = true :=
  (c4_schema_validation wZoning REQUIRED_ZONING_COLUMNS).2 (by decide)

theorem c5_witness :
    ∃ out, fix_issues wGeomFixInput = .ok out
      ∧ (∀ r ∈ out.rows, optIsValid r.geom = true ∧ rowIsEmpty r = false)
      ∧ fix_issues out = .ok out :=
  c5_fix_valid_nonempty_idempotent wGeomFixInput (by decide)

theorem c6_witness :
    ∃ out, validate_and_fix_geometries wGeomFixInput = .ok out
      ∧ ∀ r ∈ out.rows, ∃ r' ∈ wGeomFixInput.rows, r.attrs = r'.attrs ∧
          (r.geom = r'.geom ∨
            ∃ g, r'.geom = some g ∧ g.isValid = false ∧ r.geom = some g.buffer0) :=
  c6_geometry_stage_no_raise wGeomFixInput (by decide) (by decide)

theorem c7_witness :
    ensure_consistent_crs wZoning wParcels = .ok (wZoning, wParcels) :=
  (c7_crs_harmonization wZoning wParcels).1 ⟨rfl, rfl⟩

theorem c8_witness :
    process_data wBadZoning wParcels
        = .error (.valueError "Missing required zoning columns")
    ∨ process_data wBadZoning wParcels
        = .error (.valueError "Missing required parcel columns") :=
  c8_schema_failure_aborts wBadZoning wParcels wBadZoning wParcels
    rfl rfl (Or.inl (by decide))

theorem c9_witness : zoningValidator_validate wParcels = (true, []) :=
  (c9_code_pattern_validation wParcels).1 (by decide)

theorem c10_witness :
    ∃ i j, i < wOverlapZoning.rows.length ∧ j < wOverlapZoning.rows.length ∧ i ≠ j
      ∧ optIntersects ((wOverlapZoning.rows.getD i default).geom)
          ((wOverlapZoning.rows.getD j default).geom) = true :=
  (c10_overlap_heuristic wOverlapZoning wParcels).2 (by decide)

/-- On a null-free frame above the 10,000-feature threshold that contains an
invalid geometry, the validation-and-repair stage takes the parallel branch
and raises the `PicklingError` of handing a lambda to
`multiprocessing.Pool.map`. -/
theorem validate_and_fix_geometries_pickling_above_threshold :
    validate_and_fix_geometries aboveThresholdFrame = .error .picklingError := by
  have hany : (aboveThresholdFrame.rows.any (fun r => !(optIsValid r.geom))) = true := by
    decide
  have hlen : aboveThresholdFrame.rows.length > 10000 := by
    show (List.replicate 10001 _).length > 10000
    rw [List.length_replicate]
    omega
  unfold validate_and_fix_geometries
  rw [if_pos hany, if_pos hlen]
